import Mathlib

/-
Verification of the OST writing-assessment feature-extraction pipeline.

The Python sources under src/ost_writing are shallowly embedded below:
pure functions become Lean functions over String / List Char / ℚ, the
external NLP primitives (NLTK tokenizers, spaCy parser, WordNet, the
stopword list, the LanguageTool grammar checker) are passed in as an
explicit `Adapters` record of oracle functions, and the lazy module-level
singleton used by the grammar checker is modelled by explicit state
passing.  Float arithmetic in the source is modelled by exact rational
arithmetic.
-/

/-! ### Python string primitives

The feature code uses a handful of `str` methods: `lower`, `strip`,
`endswith`, `startswith`, `in`, `count`, `isalpha`, `len`.  They are
modelled over `String` / `List Char` (Python's per-code-point view of a
string).  `isalpha` is modelled with `Char.isAlpha`, which agrees with
Python on the ASCII range relevant to the English-text features. -/

/-- Python `s.lower()`: lower-case every character. -/
def pyLower (s : String) : String :=
  String.mk (s.data.map Char.toLower)

/-- Python `s.strip()`: drop leading and trailing whitespace. -/
def pyStrip (s : String) : String :=
  String.mk (((s.data.dropWhile Char.isWhitespace).reverse.dropWhile
    Char.isWhitespace).reverse)

/-- Python `s.isalpha()`: non-empty and every character alphabetic. -/
def pyIsAlpha (s : String) : Bool :=
  !s.data.isEmpty && s.data.all Char.isAlpha

/-- Python `s.endswith(c)` for a one-character suffix. -/
def pyEndsWith (s : String) (c : Char) : Bool :=
  s.data.getLast? == some c

/-- Python `s.startswith(p)`. -/
def pyStartsWith (s p : String) : Bool :=
  p.data.isPrefixOf s.data

/-- Python `c in s` for a single character. -/
def pyContainsChar (s : String) (c : Char) : Bool :=
  s.data.contains c

/-- Fuel-driven worker for `pyCountSub`; the fuel is the length of the
scanned list, which bounds the number of scanning steps. -/
def pyCountSubAux (pat : List Char) : List Char → Nat → Nat
  | _, 0 => 0
  | [], _ + 1 => 0
  | c :: rest, fuel + 1 =>
    if pat.isPrefixOf (c :: rest) then
      1 + pyCountSubAux pat (rest.drop (pat.length - 1)) fuel
    else
      pyCountSubAux pat rest fuel

/-- Python `s.count(pat)`: number of non-overlapping occurrences of
`pat`, scanning left to right. -/
def pyCountSub (pat s : List Char) : Nat :=
  pyCountSubAux pat s s.length

/-! ### Syllable Estimator — src/ost_writing/utils/text_processing.py -/

/-- The vowel letters used by the syllable heuristic. -/
def VOWELS : List Char := ['a', 'e', 'i', 'o', 'u', 'y']

/-- `count_syllables` from src/ost_writing/utils/text_processing.py:
lower-case and strip the word; a result of length ≤ 3 counts as one
syllable; otherwise count maximal vowel groups, subtract one for a
trailing silent `e` when more than one group was found, and floor the
answer at 1. -/
def count_syllables (word : String) : Nat :=
  let w := (pyStrip (pyLower word)).data
  if w.length ≤ 3 then 1
  else
    let count :=
      (w.foldl
        (fun (acc : Nat × Bool) c =>
          let isV := VOWELS.contains c
          (if isV && !acc.2 then acc.1 + 1 else acc.1, isV))
        (0, false)).1
    let count := if w.getLast? == some 'e' && count > 1 then count - 1 else count
    max 1 count

/-! ### Parsed tokens and the T-Unit Segmenter — src/ost_writing/features/clausal.py

A spaCy token is modelled with exactly the attributes the clausal code
reads: the surface text, the `is_alpha` flag, the dependency label, the
part of speech of the head token, and the (dependency label, part of
speech) pairs of the head's children.  A parsed sentence is a token
list; the parser adapter returns the list of parsed sentences. -/

/-- A parsed token, carrying the attributes read by the feature code. -/
structure Token where
  text : String
  is_alpha : Bool
  dep_ : String
  head_pos : String
  head_children : List (String × String)
deriving Repr, DecidableEq

/-- The dependent-clause test of clausal.py line 47:
`token.dep_ in ("advcl", "relcl", "ccomp", "xcomp", "acl")`. -/
def isDepClauseMarker (t : Token) : Bool :=
  t.dep_ == "advcl" || t.dep_ == "relcl" || t.dep_ == "ccomp" ||
    t.dep_ == "xcomp" || t.dep_ == "acl"

/-- The T-unit boundary test of clausal.py lines 51-54: a coordinating
conjunction whose head is a verb that has a verb child attached by the
conjunct relation. -/
def isTUnitBoundary (t : Token) : Bool :=
  t.dep_ == "cc" && t.head_pos == "VERB" &&
    t.head_children.any (fun c => c.1 == "conj" && c.2 == "VERB")

/-- The loop state of `_extract_t_units`: the closed T-unit lengths, the
total dependent-clause count, the tokens of the current T-unit, and the
dependent-clause count of the current T-unit. -/
structure TUState where
  lengths : List Nat
  depTotal : Nat
  current : List Token
  sentDep : Nat
deriving Repr

/-- One iteration of the inner token loop of `_extract_t_units`
(clausal.py lines 43-59): append the token to the current T-unit, bump
the dependent-clause counter on a subordination label, and on a boundary
token close the current T-unit (recording its length and clause count)
and start a fresh one. -/
def stepToken (st : TUState) (token : Token) : TUState :=
  let current := st.current ++ [token]
  let sentDep := if isDepClauseMarker token then st.sentDep + 1 else st.sentDep
  if isTUnitBoundary token then
    if current.isEmpty then
      ⟨st.lengths, st.depTotal, current, sentDep⟩
    else
      ⟨st.lengths ++ [current.length], st.depTotal + sentDep, [], 0⟩
  else
    ⟨st.lengths, st.depTotal, current, sentDep⟩

/-- Process one sentence (clausal.py lines 39-64): run the token loop
starting from an empty current T-unit, then close the final T-unit when
it is non-empty.  Returns the accumulated T-unit lengths and total
dependent-clause count. -/
def processSent (lengths : List Nat) (depTotal : Nat) (sent : List Token) :
    List Nat × Nat :=
  let st := sent.foldl stepToken ⟨lengths, depTotal, [], 0⟩
  if st.current.isEmpty then (st.lengths, st.depTotal)
  else (st.lengths ++ [st.current.length], st.depTotal + st.sentDep)

/-- `_extract_t_units` over a parsed document (clausal.py lines 20-66):
fold the per-sentence loop over all sentences, starting from no closed
T-units. -/
def extract_t_units (sents : List (List Token)) : List Nat × Nat :=
  sents.foldl (fun acc sent => processSent acc.1 acc.2 sent) ([], 0)

/-! ### External NLP primitives — the adapter record

The NLTK tokenizers, the stopword list, WordNet, the spaCy parser and
the LanguageTool grammar checker are external collaborators; they are
passed to every feature as a record of oracle functions. -/

/-- A WordNet synset as read by the feature code: `primary_lemma`
models `synset.lemmas()[0].name()` (a WordNet synset always has at
least one lemma) and `min_depth` models `synset.min_depth()`. -/
structure Synset where
  primary_lemma : String
  min_depth : Nat
deriving Repr, DecidableEq

/-- The external NLP primitives used by the features. -/
structure Adapters where
  sent_tokenize : String → List String
  word_tokenize : String → List String
  stopwords : List String
  synsets : String → List Synset
  parse : String → List (List Token)
  check : String → Nat

/-! ### Surface features — src/ost_writing/features/surface.py -/

/-- `word_count`: number of alphabetic tokens. -/
def word_count (a : Adapters) (text : String) : Nat :=
  ((a.word_tokenize text).filter pyIsAlpha).length

/-- `avg_sentence_length`: mean alphabetic-token count per sentence;
0.0 with no sentences. -/
def avg_sentence_length (a : Adapters) (text : String) : ℚ :=
  let sentences := a.sent_tokenize text
  if sentences.isEmpty then 0
  else
    let lengths := sentences.map
      (fun s => ((a.word_tokenize s).filter pyIsAlpha).length)
    (lengths.sum : ℚ) / (lengths.length : ℚ)

/-- `num_complex_sentences`: sentences whose alphabetic-token count
strictly exceeds the threshold (the extractor passes the default 15). -/
def num_complex_sentences (a : Adapters) (text : String) (threshold : Nat) : Nat :=
  ((a.sent_tokenize text).filter
    (fun s => ((a.word_tokenize s).filter pyIsAlpha).length > threshold)).length

/-! ### Lexical features — src/ost_writing/features/lexical.py -/

/-- `lexical_diversity`: distinct lower-cased alphabetic tokens over all
alphabetic tokens; 0.0 with none. -/
def lexical_diversity (a : Adapters) (text : String) : ℚ :=
  let tokens := ((a.word_tokenize text).filter pyIsAlpha).map pyLower
  if tokens.isEmpty then 0
  else (tokens.toFinset.card : ℚ) / (tokens.length : ℚ)

/-- The lower-cased alphabetic non-stopword tokens used by
`vocabulary_sophistication` and `polysemy_word`. -/
def contentTokens (a : Adapters) (text : String) : List String :=
  ((a.word_tokenize text).filter
    (fun t => pyIsAlpha t && !a.stopwords.contains (pyLower t))).map pyLower

/-- `vocabulary_sophistication`: per token with known synsets, the mean
synset depth; the mean of those means, divided by 10 and clamped above
at 1; 0.0 with no content tokens or no token with synsets. -/
def vocabulary_sophistication (a : Adapters) (text : String) : ℚ :=
  let tokens := contentTokens a text
  if tokens.isEmpty then 0
  else
    let depths := tokens.filterMap (fun tok =>
      let syns := a.synsets tok
      if syns.isEmpty then none
      else some (((syns.map (fun s => (s.min_depth : ℚ))).sum) / (syns.length : ℚ)))
    if depths.isEmpty then 0
    else min 1 ((depths.sum / (depths.length : ℚ)) / 10)

/-- `polysemy_word`: content tokens with strictly more than one synset. -/
def polysemy_word (a : Adapters) (text : String) : Nat :=
  (contentTokens a text).countP (fun tok => (a.synsets tok).length > 1)

/-! ### Syntactic features — src/ost_writing/features/syntactic.py -/

/-- The closed set of subordinating sentence starters
(syntactic.py line 33). -/
def COMPLEX_STARTERS : List String :=
  ["if", "when", "although", "because", "while", "since", "after", "before"]

/-- The five sentence types of `sentence_type_diversity`. -/
def SENT_TYPES : List String :=
  ["question", "exclamation", "complex", "compound", "simple"]

/-- The per-sentence classification of `sentence_type_diversity`
(syntactic.py lines 35-46), a first-match cascade: trailing `?`, then
trailing `!`, then a subordinating starter on the lower-cased stripped
sentence, then a comma together with more than 10 tokens, else simple. -/
def classifySentence (a : Adapters) (sent : String) : String :=
  let s := pyStrip sent
  if pyEndsWith s '?' then "question"
  else if pyEndsWith s '!' then "exclamation"
  else if COMPLEX_STARTERS.any (fun w => pyStartsWith (pyLower s) w) then "complex"
  else if pyContainsChar sent ',' && (a.word_tokenize sent).length > 10 then "compound"
  else "simple"

/-- `sentence_type_diversity`: distinct observed sentence types divided
by 5; 0.0 with no sentences. -/
def sentence_type_diversity (a : Adapters) (text : String) : ℚ :=
  let sentences := a.sent_tokenize text
  if sentences.isEmpty then 0
  else (((sentences.map (classifySentence a)).toFinset.card : ℚ)) / 5

/-- `syntactic_simplicity`: 1/(1 + mean sentence token count / 15); 0.0
with no sentences or a zero mean. -/
def syntactic_simplicity (a : Adapters) (text : String) : ℚ :=
  let sentences := a.sent_tokenize text
  if sentences.isEmpty then 0
  else
    let lengths := sentences.map (fun s => (a.word_tokenize s).length)
    let avg_len : ℚ := (lengths.sum : ℚ) / (lengths.length : ℚ)
    if avg_len > 0 then 1 / (1 + avg_len / 15) else 0

/-- `information_density`: alphabetic non-stopword tokens over all
alphabetic tokens; 0.0 with none. -/
def information_density (a : Adapters) (text : String) : ℚ :=
  let tokens := ((a.word_tokenize text).filter pyIsAlpha).map pyLower
  if tokens.isEmpty then 0
  else ((tokens.filter (fun t => !a.stopwords.contains t)).length : ℚ) / (tokens.length : ℚ)

/-! ### Accuracy features — src/ost_writing/features/accuracy.py -/

/-- `error_count` with the service invocation made observable: the pair
holds the returned count and whether the external grammar checker was
invoked.  accuracy.py lines 45-50: empty text or text shorter than 10
characters short-circuits to 0 before the checker is touched. -/
def error_count_run (a : Adapters) (text : String) : Nat × Bool :=
  if text = "" ∨ text.length < 10 then (0, false)
  else (a.check text, true)

/-- `error_count`: the count returned by `error_count_run`. -/
def error_count (a : Adapters) (text : String) : Nat :=
  (error_count_run a text).1

/-- `context_sensitive_count` (accuracy.py lines 53-80): over all parsed
tokens of the document, count the alphabetic tokens with at least one
synset whose primary lemma (lower-cased) differs from the token's
lower-cased text; tokens with no synsets are skipped. -/
def context_sensitive_count (a : Adapters) (text : String) : Nat :=
  ((a.parse text).flatten).foldl
    (fun count tok =>
      if !tok.is_alpha then count
      else
        match a.synsets (pyLower tok.text) with
        | [] => count
        | syn :: _ =>
          if pyLower syn.primary_lemma ≠ pyLower tok.text then count + 1 else count)
    0

/-! ### Cohesion features — src/ost_writing/features/cohesion.py -/

/-- The per-sentence set of lower-cased alphabetic non-stopword tokens
used by `referential_cohesion` (cohesion.py lines 39-42). -/
def contentSet (a : Adapters) (s : String) : Finset String :=
  (((a.word_tokenize s).filter
    (fun t => pyIsAlpha t && !a.stopwords.contains (pyLower t))).map pyLower).toFinset

/-- `referential_cohesion`: mean Jaccard similarity of the content sets
of adjacent sentence pairs, skipping pairs where either set is empty;
0.0 with at most one sentence or no scored pair. -/
def referential_cohesion (a : Adapters) (text : String) : ℚ :=
  let sentences := a.sent_tokenize text
  if sentences.length ≤ 1 then 0
  else
    let overlaps := (sentences.zip sentences.tail).filterMap (fun p =>
      let t1 := contentSet a p.1
      let t2 := contentSet a p.2
      if t1 = ∅ ∨ t2 = ∅ then none
      else
        let inter := (t1 ∩ t2).card
        let uni := (t1 ∪ t2).card
        if uni > 0 then some ((inter : ℚ) / (uni : ℚ)) else none)
    if overlaps.isEmpty then 0 else overlaps.sum / (overlaps.length : ℚ)

/-- The closed connective list of `deep_cohesion`
(cohesion.py lines 73-82). -/
def CONNECTIVES : List String :=
  ["because", "therefore", "thus", "consequently", "so",
   "although", "though", "however", "but", "despite",
   "first", "second", "next", "then", "finally", "last",
   "furthermore", "moreover", "additionally", "also"]

/-- The connective occurrence count of `deep_cohesion` (cohesion.py
line 90): occurrences of each connective surrounded by single spaces in
the lower-cased text, summed over the closed list. -/
def connectiveCount (text : String) : Nat :=
  (CONNECTIVES.map
    (fun c => pyCountSub (" " ++ c ++ " ").data (pyLower text).data)).sum

/-- `deep_cohesion`: connective occurrences divided by the alphabetic
word count; 0.0 with no alphabetic words. -/
def deep_cohesion (a : Adapters) (text : String) : ℚ :=
  let words := (a.word_tokenize text).filter pyIsAlpha
  if words.isEmpty then 0
  else (connectiveCount text : ℚ) / (words.length : ℚ)

/-! ### Readability features — src/ost_writing/features/readability.py -/

/-- `flesch_kincaid_grade_level`: 0.39·(words/sentences) +
11.8·(syllables/words) − 15.59, floored at 0; 0.0 with no sentences or
no alphabetic words. -/
def flesch_kincaid_grade_level (a : Adapters) (text : String) : ℚ :=
  let sentences := a.sent_tokenize text
  let words := (a.word_tokenize text).filter pyIsAlpha
  if sentences.isEmpty ∨ words.isEmpty then 0
  else
    let wc : ℚ := (words.length : ℚ)
    let sc : ℚ := (sentences.length : ℚ)
    let syl : ℚ := ((words.map count_syllables).sum : ℚ)
    max 0 (0.39 * (wc / sc) + 11.8 * (syl / wc) - 15.59)

/-- `text_ease` (readability.py lines 45-88): the weighted sum of grade
ease, syntactic simplicity, the fixed 0.5 concreteness placeholder,
referential cohesion and deep cohesion, with weights
[0.25, 0.25, 0.20, 0.15, 0.15] combined by a zip-and-sum exactly as in
the source. -/
def text_ease (a : Adapters) (text : String) : ℚ :=
  let fk_grade := flesch_kincaid_grade_level a text
  let grade_ease : ℚ := 1 - min 1 (max 0 ((fk_grade - 3) / 15))
  let synt_simp := syntactic_simplicity a text
  let ref_coh := referential_cohesion a text
  let deep_coh := deep_cohesion a text
  let word_concrete : ℚ := 0.5
  let weights : List ℚ := [0.25, 0.25, 0.20, 0.15, 0.15]
  let components : List ℚ := [grade_ease, synt_simp, word_concrete, ref_coh, deep_coh]
  ((weights.zip components).map (fun p => p.1 * p.2)).sum

/-! ### Variability features — src/ost_writing/features/variability.py -/

/-- Population variance, the quantity computed by `np.var`. -/
def popVariance (xs : List ℚ) : ℚ :=
  let n : ℚ := (xs.length : ℚ)
  let mean := xs.sum / n
  (xs.map (fun x => (x - mean) ^ 2)).sum / n

/-- `word_length_variance`: population variance of the character counts
of the alphabetic tokens; 0.0 with none. -/
def word_length_variance (a : Adapters) (text : String) : ℚ :=
  let words := (a.word_tokenize text).filter pyIsAlpha
  if words.isEmpty then 0
  else popVariance (words.map (fun w => (w.length : ℚ)))

/-- `syllable_variance`: population variance of the syllable-estimator
outputs over the alphabetic tokens; 0.0 with none. -/
def syllable_variance (a : Adapters) (text : String) : ℚ :=
  let words := (a.word_tokenize text).filter pyIsAlpha
  if words.isEmpty then 0
  else popVariance (words.map (fun w => (count_syllables w : ℚ)))

/-! ### Clausal features — src/ost_writing/features/clausal.py -/

/-- `num_t_units`: number of closed T-units across the document. -/
def num_t_units (a : Adapters) (text : String) : Nat :=
  (extract_t_units (a.parse text)).1.length

/-- `mean_length_t_unit`: mean token count per closed T-unit; 0.0 with
no T-units. -/
def mean_length_t_unit (a : Adapters) (text : String) : ℚ :=
  let r := extract_t_units (a.parse text)
  if r.1.isEmpty then 0 else (r.1.sum : ℚ) / (r.1.length : ℚ)

/-- `dependent_clauses_per_t_unit`: total dependent-clause count over
the number of closed T-units; 0.0 with no T-units. -/
def dependent_clauses_per_t_unit (a : Adapters) (text : String) : ℚ :=
  let r := extract_t_units (a.parse text)
  if r.1.isEmpty then 0 else (r.2 : ℚ) / (r.1.length : ℚ)

/-! ### Feature Extractor Facade — src/ost_writing/extractor.py -/

/-- A Python value passed to `FeatureExtractor.extract`: `None`, a
string, or a representative non-string value (an integer or a list). -/
inductive PyInput where
  | pyNone : PyInput
  | pyInt : Int → PyInput
  | pyList : PyInput
  | pyStr : String → PyInput
deriving Repr, DecidableEq

/-- A feature value, keeping Python's distinction between the integer
and floating-point features (`Union[int, float]`). -/
inductive PyNum where
  | int : Int → PyNum
  | float : ℚ → PyNum
deriving Repr, DecidableEq

/-- `FeatureExtractor.FEATURE_NAMES` (extractor.py lines 45-54). -/
def FEATURE_NAMES : List String :=
  ["word_count", "avg_sentence_length", "num_complex_sentences",
   "lexical_diversity", "vocabulary_sophistication", "polysemy_word",
   "sentence_type_diversity", "syntactic_simplicity", "information_density",
   "error_count", "context_sensitive_count",
   "flesch_kincaid_grade_level", "text_ease",
   "referential_cohesion", "deep_cohesion",
   "word_length_variance", "syllable_variance",
   "num_t_units", "mean_length_t_unit", "dependent_clauses_per_t_unit"]

/-- The condition of extractor.py line 79,
`not text or not isinstance(text, str)`: true for `None`, for every
non-string value, and for the empty string. -/
def isDegenerateInput : PyInput → Bool
  | .pyStr s => s == ""
  | _ => true

/-- The feature dictionary literal of extractor.py lines 82-103, in
source order, parameterized by the value the `error_count(text)` entry
evaluated to (the one entry that touches the external checker; all other
entries are pure in `text` and the adapters). -/
def featureValues (a : Adapters) (text : String) (ec : Nat) : List (String × PyNum) :=
  [("word_count", .int (word_count a text)),
   ("avg_sentence_length", .float (avg_sentence_length a text)),
   ("num_complex_sentences", .int (num_complex_sentences a text 15)),
   ("lexical_diversity", .float (lexical_diversity a text)),
   ("vocabulary_sophistication", .float (vocabulary_sophistication a text)),
   ("polysemy_word", .int (polysemy_word a text)),
   ("sentence_type_diversity", .float (sentence_type_diversity a text)),
   ("syntactic_simplicity", .float (syntactic_simplicity a text)),
   ("information_density", .float (information_density a text)),
   ("error_count", .int ec),
   ("context_sensitive_count", .int (context_sensitive_count a text)),
   ("flesch_kincaid_grade_level", .float (flesch_kincaid_grade_level a text)),
   ("text_ease", .float (text_ease a text)),
   ("referential_cohesion", .float (referential_cohesion a text)),
   ("deep_cohesion", .float (deep_cohesion a text)),
   ("word_length_variance", .float (word_length_variance a text)),
   ("syllable_variance", .float (syllable_variance a text)),
   ("num_t_units", .int (num_t_units a text)),
   ("mean_length_t_unit", .float (mean_length_t_unit a text)),
   ("dependent_clauses_per_t_unit", .float (dependent_clauses_per_t_unit a text))]

/-- `FeatureExtractor.extract` (extractor.py lines 69-108): degenerate
input yields every prefixed canonical key mapped to integer zero;
otherwise the 20 features are computed and the configured prefix is
applied when it is non-empty (`if self.prefix:`). -/
def extract (a : Adapters) (pre : String) (input : PyInput) : List (String × PyNum) :=
  match input with
  | .pyStr text =>
    if text = "" then FEATURE_NAMES.map (fun n => (pre ++ n, PyNum.int 0))
    else
      let features := featureValues a text (error_count a text)
      if pre ≠ "" then features.map (fun p => (pre ++ p.1, p.2)) else features
  | _ => FEATURE_NAMES.map (fun n => (pre ++ n, PyNum.int 0))

/-! ### The lazy LanguageTool singleton, made explicit

accuracy.py keeps the LanguageTool handle in a module-level variable
`_language_tool`, initialized on first use by `_get_language_tool`.
That hidden state is modelled by explicit state passing: `mk` plays the
role of `language_tool_python.LanguageTool('en-US')`, constructing the
checking function. -/

/-- The module-level state of accuracy.py: the cached tool, if loaded. -/
structure ProcState where
  language_tool : Option (String → Nat)

/-- `_get_language_tool` (accuracy.py lines 19-25): return the cached
tool, constructing and caching it on first use. -/
def getLanguageTool (mk : Unit → String → Nat) (st : ProcState) :
    (String → Nat) × ProcState :=
  match st.language_tool with
  | some tool => (tool, st)
  | none =>
    let tool := mk ()
    (tool, ⟨some tool⟩)

/-- `error_count` with the singleton state threaded explicitly: the
short-circuit for empty or short text happens before the tool is
loaded. -/
def error_count_st (mk : Unit → String → Nat) (st : ProcState) (text : String) :
    Nat × ProcState :=
  if text = "" ∨ text.length < 10 then (0, st)
  else
    let r := getLanguageTool mk st
    (r.1 text, r.2)

/-- `FeatureExtractor.extract` with the singleton state threaded
explicitly; only the `error_count` entry touches the state. -/
def extract_st (a : Adapters) (mk : Unit → String → Nat) (pre : String)
    (input : PyInput) (st : ProcState) : List (String × PyNum) × ProcState :=
  match input with
  | .pyStr text =>
    if text = "" then (FEATURE_NAMES.map (fun n => (pre ++ n, PyNum.int 0)), st)
    else
      let r := error_count_st mk st text
      let features := featureValues a text r.1
      ((if pre ≠ "" then features.map (fun p => (pre ++ p.1, p.2)) else features), r.2)
  | _ => (FEATURE_NAMES.map (fun n => (pre ++ n, PyNum.int 0)), st)

/-! ### The fallible grammar checker

accuracy.py calls `tool.check(text)` with no exception handling, and
extractor.py wraps none of the feature calls in try/except; a checker
failure is modelled by an `Except`-valued oracle whose error propagates
exactly as a Python exception would. -/

/-- `error_count` against a fallible checker: the short-circuit still
returns 0, and otherwise the checker's outcome — success or failure —
is returned unchanged (accuracy.py has no try/except). -/
def error_count_exc (check : String → Except String Nat) (text : String) :
    Except String Nat :=
  if text = "" ∨ text.length < 10 then .ok 0
  else check text

/-- `FeatureExtractor.extract` against a fallible checker: a failure of
the single grammar-check call aborts the whole extraction (extractor.py
wraps no feature call in try/except), and no record is produced. -/
def extract_exc (a : Adapters) (check : String → Except String Nat) (pre : String)
    (input : PyInput) : Except String (List (String × PyNum)) :=
  match input with
  | .pyStr text =>
    if text = "" then .ok (FEATURE_NAMES.map (fun n => (pre ++ n, PyNum.int 0)))
    else
      match error_count_exc check text with
      | .error e => .error e
      | .ok ec =>
        let features := featureValues a text ec
        .ok (if pre ≠ "" then features.map (fun p => (pre ++ p.1, p.2)) else features)
  | _ => .ok (FEATURE_NAMES.map (fun n => (pre ++ n, PyNum.int 0)))

/-! ### Test fixtures

Concrete deterministic adapter instances used to evaluate the
development on closed inputs. -/

/-- Whitespace word splitter, accumulator-based. -/
def wsTokens : List Char → List Char → List String
  | [], acc => if acc.isEmpty then [] else [String.mk acc.reverse]
  | c :: rest, acc =>
    if c = ' ' then
      (if acc.isEmpty then wsTokens rest [] else String.mk acc.reverse :: wsTokens rest [])
    else wsTokens rest (c :: acc)

/-- A simple deterministic word tokenizer: split on spaces. -/
def wsSplit (s : String) : List String := wsTokens s.data []

/-- A simple deterministic sentence tokenizer: the whole text as one
sentence, none for empty text. -/
def oneSentSplit (s : String) : List String := if s = "" then [] else [s]

/-- A deterministic adapter instance for concrete evaluation. -/
def testAdapters : Adapters :=
  ⟨oneSentSplit, wsSplit, [], fun _ => [], fun _ => [], fun _ => 0⟩

/-- A non-boundary token (an ordinary subject noun). -/
def plainTok : Token := ⟨"cats", true, "nsubj", "VERB", []⟩

/-- A boundary token: a coordinating conjunction under a verb that has
a conjunct verb child. -/
def boundaryTok : Token := ⟨"and", true, "cc", "VERB", [("conj", "VERB")]⟩

/-- An adapter whose parser yields one single-token sentence. -/
def parseOneAdapters : Adapters :=
  ⟨oneSentSplit, wsSplit, [], fun _ => [], fun _ => [[plainTok]], fun _ => 0⟩

/-! ### Helper lemmas -/

/-- Appending the empty string on the left is the identity. -/
theorem str_empty_append (s : String) : "" ++ s = s := by
  cases s
  rfl

/-- A list with an appended element is never empty. -/
theorem isEmpty_append_singleton {α : Type} (l : List α) (a : α) :
    (l ++ [a]).isEmpty = false := by
  cases l <;> rfl

/-- The closed-lengths component of one token step: it grows by the
current T-unit's length (token included) exactly on a boundary token. -/
theorem stepToken_lengths (st : TUState) (t : Token) :
    (stepToken st t).lengths =
      if isTUnitBoundary t then st.lengths ++ [st.current.length + 1]
      else st.lengths := by
  unfold stepToken
  by_cases hb : isTUnitBoundary t = true
  · simp [hb, isEmpty_append_singleton]
  · simp [hb]

/-- The current-T-unit component of one token step: it resets exactly on
a boundary token, and otherwise gains the token. -/
theorem stepToken_current (st : TUState) (t : Token) :
    (stepToken st t).current =
      if isTUnitBoundary t then [] else st.current ++ [t] := by
  unfold stepToken
  by_cases hb : isTUnitBoundary t = true
  · simp [hb, isEmpty_append_singleton]
  · simp [hb]

/-- Token-loop invariant: the loop only appends closed T-units, and the
closed lengths plus the pending current T-unit account for every token
consumed, with none duplicated. -/
theorem foldl_stepToken_partition (sent : List Token) :
    ∀ st : TUState, ∃ units : List Nat,
      (sent.foldl stepToken st).lengths = st.lengths ++ units ∧
      units.sum + (sent.foldl stepToken st).current.length =
        st.current.length + sent.length := by
  induction sent with
  | nil => intro st; exact ⟨[], by simp, by simp⟩
  | cons t rest ih =>
    intro st
    simp only [List.foldl_cons]
    obtain ⟨u, hu1, hu2⟩ := ih (stepToken st t)
    by_cases hb : isTUnitBoundary t = true
    · refine ⟨(st.current.length + 1) :: u, ?_, ?_⟩
      · rw [hu1, stepToken_lengths, if_pos hb, List.append_assoc]
        rfl
      · have hc := stepToken_current st t
        rw [if_pos hb] at hc
        rw [hc] at hu2
        simp only [List.length_nil, List.length_cons, List.sum_cons] at hu2 ⊢
        omega
    · refine ⟨u, ?_, ?_⟩
      · rw [hu1, stepToken_lengths, if_neg hb]
      · have hc := stepToken_current st t
        rw [if_neg hb] at hc
        rw [hc] at hu2
        simp only [List.length_append, List.length_cons, List.length_nil] at hu2 ⊢
        omega

/-- Per-sentence partition: processing a sentence appends T-units whose
token counts sum to the sentence's token count. -/
theorem processSent_units (L : List Nat) (D : Nat) (sent : List Token) :
    ∃ units : List Nat,
      (processSent L D sent).1 = L ++ units ∧ units.sum = sent.length := by
  obtain ⟨u, hu1, hu2⟩ := foldl_stepToken_partition sent ⟨L, D, [], 0⟩
  simp only [processSent]
  rcases hcur : (sent.foldl stepToken ⟨L, D, [], 0⟩).current with _ | ⟨x, xs⟩
  · rw [hcur] at hu2
    refine ⟨u, by simp [hcur, hu1], ?_⟩
    simpa using hu2
  · rw [hcur] at hu2
    refine ⟨u ++ [(x :: xs).length], by simp [hcur, hu1], ?_⟩
    simp only [List.sum_append, List.sum_cons, List.sum_nil, List.length_cons,
      List.length_nil] at hu2 ⊢
    omega

/-- Document-level partition: the closed T-unit lengths of a fold over
sentences sum to the initial lengths plus all sentence token counts. -/
theorem foldl_processSent_sum (sents : List (List Token)) :
    ∀ (L : List Nat) (D : Nat),
      ((sents.foldl (fun acc sent => processSent acc.1 acc.2 sent) (L, D)).1).sum
        = L.sum + (sents.map List.length).sum := by
  induction sents with
  | nil => intro L D; simp
  | cons s rest ih =>
    intro L D
    simp only [List.foldl_cons, List.map_cons, List.sum_cons]
    obtain ⟨u, hu1, hu2⟩ := processSent_units L D s
    have hih := ih (processSent L D s).1 (processSent L D s).2
    rw [show ((processSent L D s).1, (processSent L D s).2) = processSent L D s
      from rfl] at hih
    rw [hih, hu1]
    simp only [List.sum_append]
    omega

/-- Every length closed by the token loop is positive, provided the
lengths closed so far are. -/
theorem foldl_stepToken_all_pos (sent : List Token) :
    ∀ st : TUState, (∀ l ∈ st.lengths, 1 ≤ l) →
      ∀ l ∈ (sent.foldl stepToken st).lengths, 1 ≤ l := by
  induction sent with
  | nil => intro st h; simpa using h
  | cons t rest ih =>
    intro st h
    simp only [List.foldl_cons]
    apply ih
    intro l hl
    rw [stepToken_lengths] at hl
    by_cases hb : isTUnitBoundary t = true
    · rw [if_pos hb] at hl
      rcases List.mem_append.1 hl with h1 | h2
      · exact h l h1
      · simp only [List.mem_singleton] at h2
        omega
    · rw [if_neg hb] at hl
      exact h l hl

/-- Every length closed while processing a sentence is positive,
provided the lengths closed so far are. -/
theorem processSent_all_pos (L : List Nat) (D : Nat) (sent : List Token)
    (h : ∀ l ∈ L, 1 ≤ l) : ∀ l ∈ (processSent L D sent).1, 1 ≤ l := by
  have hfold := foldl_stepToken_all_pos sent ⟨L, D, [], 0⟩ (by simpa using h)
  simp only [processSent]
  rcases hcur : (sent.foldl stepToken ⟨L, D, [], 0⟩).current with _ | ⟨x, xs⟩
  · simpa using hfold
  · intro l hl
    simp at hl
    rcases hl with h1 | h2
    · exact hfold l h1
    · omega

/-- Processing an empty sentence closes nothing. -/
theorem processSent_nil (L : List Nat) (D : Nat) : processSent L D [] = (L, D) := rfl

/-- Document-level count: the fold closes at least one T-unit for every
non-empty sentence. -/
theorem foldl_processSent_count (sents : List (List Token)) :
    ∀ (L : List Nat) (D : Nat),
      L.length + (sents.filter (fun s => !s.isEmpty)).length
        ≤ ((sents.foldl (fun acc sent => processSent acc.1 acc.2 sent) (L, D)).1).length := by
  induction sents with
  | nil => intro L D; simp
  | cons s rest ih =>
    intro L D
    simp only [List.foldl_cons]
    have hih := ih (processSent L D s).1 (processSent L D s).2
    rw [show ((processSent L D s).1, (processSent L D s).2) = processSent L D s
      from rfl] at hih
    obtain ⟨u, hu1, hu2⟩ := processSent_units L D s
    rcases s with _ | ⟨t, ts⟩
    · have hfil : List.filter (fun s => !s.isEmpty) ([] :: rest)
          = List.filter (fun s => !s.isEmpty) rest := by simp
      rw [hfil, processSent_nil]
      exact ih L D
    · have hu : 1 ≤ u.length := by
        rcases u with _ | ⟨v, vs⟩
        · simp only [List.sum_nil, List.length_cons] at hu2
          omega
        · simp
      have hlen : L.length + 1 ≤ (processSent L D (t :: ts)).1.length := by
        rw [hu1, List.length_append]
        omega
      have hfil : List.filter (fun s => !s.isEmpty) ((t :: ts) :: rest)
          = (t :: ts) :: List.filter (fun s => !s.isEmpty) rest := by simp
      rw [hfil, List.length_cons]
      omega

/-! ### Claim theorems -/

/-- C2: for every sentence produced by the parser, the T-unit segmenter
partitions the sentence's token stream — the T-units closed while
processing a sentence are exactly appended to the previously closed
ones and their token counts sum to the sentence's token count, and over
a whole document the closed T-unit lengths sum to the total token count
(no token in two T-units, none left out). -/
theorem t_unit_partition :
    (∀ (prevLengths : List Nat) (prevDep : Nat) (sent : List Token),
       ∃ units : List Nat,
         (processSent prevLengths prevDep sent).1 = prevLengths ++ units ∧
         units.sum = sent.length) ∧
    (∀ sents : List (List Token),
       ((extract_t_units sents).1).sum = (sents.map List.length).sum) := by
  constructor
  · exact processSent_units
  · intro sents
    have h := foldl_processSent_sum sents [] 0
    simpa [extract_t_units] using h

/-- C10: every closed T-unit is non-empty; the boundary-triggering
coordinating-conjunction token is counted in the T-unit being closed
(whose recorded length is the previous current length plus one) while
the new T-unit starts empty; and every non-empty sentence contributes
at least one T-unit, so `num_t_units` is at least the number of
non-empty sentences. -/
theorem t_unit_nonempty :
    (∀ sents : List (List Token), ∀ l ∈ (extract_t_units sents).1, 1 ≤ l) ∧
    (∀ (st : TUState) (t : Token), isTUnitBoundary t = true →
       (stepToken st t).lengths = st.lengths ++ [st.current.length + 1] ∧
       (stepToken st t).current = []) ∧
    (∀ (a : Adapters) (text : String),
       ((a.parse text).filter (fun s => !s.isEmpty)).length ≤ num_t_units a text) := by
  refine ⟨?_, ?_, ?_⟩
  · intro sents
    have h : ∀ (ss : List (List Token)) (L : List Nat) (D : Nat),
        (∀ l ∈ L, 1 ≤ l) →
        ∀ l ∈ ((ss.foldl (fun acc sent => processSent acc.1 acc.2 sent) (L, D)).1), 1 ≤ l := by
      intro ss
      induction ss with
      | nil => intro L D hL; simpa using hL
      | cons s rest ih =>
        intro L D hL
        simp only [List.foldl_cons]
        have hstep := processSent_all_pos L D s hL
        have := ih (processSent L D s).1 (processSent L D s).2 hstep
        rwa [show ((processSent L D s).1, (processSent L D s).2) = processSent L D s
          from rfl] at this
    have := h sents [] 0 (by simp)
    simpa [extract_t_units] using this
  · intro st t ht
    constructor
    · rw [stepToken_lengths, if_pos ht]
    · rw [stepToken_current, if_pos ht]
  · intro a text
    have h := foldl_processSent_count (a.parse text) [] 0
    simpa [num_t_units, extract_t_units] using h

/-- Witness for C10 at concrete inputs: the single T-unit extracted from
a one-token sentence has length 1, and a boundary token closes the
current T-unit with the token included and empties the current unit. -/
theorem t_unit_nonempty_witness :
    (1 : Nat) ≤ 1 ∧
    (stepToken ⟨[], 0, [], 0⟩ boundaryTok).lengths = [] ++ [List.length ([] : List Token) + 1] ∧
    (stepToken ⟨[], 0, [], 0⟩ boundaryTok).current = [] ∧
    ((parseOneAdapters.parse "x").filter (fun s => !s.isEmpty)).length
      ≤ num_t_units parseOneAdapters "x" :=
  ⟨t_unit_nonempty.1 [[plainTok]] 1 (by decide),
   (t_unit_nonempty.2.1 ⟨[], 0, [], 0⟩ boundaryTok (by decide)).1,
   (t_unit_nonempty.2.1 ⟨[], 0, [], 0⟩ boundaryTok (by decide)).2,
   t_unit_nonempty.2.2 parseOneAdapters "x"⟩

/-- C9: the syllable estimator never returns less than 1, and any word
whose lower-cased stripped form has at most 3 characters yields exactly
1 regardless of its characters. -/
theorem count_syllables_min_one (w : String) :
    1 ≤ count_syllables w ∧
      ((pyStrip (pyLower w)).data.length ≤ 3 → count_syllables w = 1) := by
  constructor
  · simp only [count_syllables]
    by_cases h : (pyStrip (pyLower w)).data.length ≤ 3
    · rw [if_pos h]
    · rw [if_neg h]
      exact le_max_left _ _
  · intro h
    simp only [count_syllables]
    rw [if_pos h]

/-- Witness for C9 at a concrete input: a 3-character word (after
lower-casing and stripping) counts as one syllable. -/
theorem count_syllables_min_one_witness :
    (pyStrip (pyLower "Zb ")).data.length ≤ 3 ∧ count_syllables "Zb " = 1 :=
  ⟨by decide, (count_syllables_min_one "Zb ").2 (by decide)⟩

/-- C7: input strictly shorter than 10 characters makes `error_count`
return 0 without invoking the external grammar checker (the invocation
flag of `error_count_run` stays false). -/
theorem error_count_short_circuit (a : Adapters) (text : String)
    (h : text.length < 10) :
    error_count a text = 0 ∧ error_count_run a text = (0, false) := by
  have hcond : text = "" ∨ text.length < 10 := Or.inr h
  refine ⟨?_, ?_⟩
  · simp [error_count, error_count_run, hcond]
  · simp [error_count_run, hcond]

/-- Witness for C7 at a concrete input: a 4-character text yields 0 with
the service not invoked. -/
theorem error_count_short_circuit_witness :
    ("tiny" : String).length < 10 ∧ error_count testAdapters "tiny" = 0 ∧
      error_count_run testAdapters "tiny" = (0, false) :=
  ⟨by decide, (error_count_short_circuit testAdapters "tiny" (by decide)).1,
   (error_count_short_circuit testAdapters "tiny" (by decide)).2⟩

/-- C3: `text_ease` is exactly the fixed weighted sum
0.25·grade_ease + 0.25·syntactic_simplicity + 0.20·0.5 +
0.15·referential_cohesion + 0.15·deep_cohesion, where grade_ease is
1 minus the Flesch-Kincaid grade clamped through (FK − 3)/15 into
[0, 1], with no clamping of the final result. -/
theorem text_ease_formula (a : Adapters) (text : String) :
    text_ease a text =
      0.25 * (1 - min 1 (max 0 ((flesch_kincaid_grade_level a text - 3) / 15))) +
      0.25 * syntactic_simplicity a text + 0.20 * 0.5 +
      0.15 * referential_cohesion a text + 0.15 * deep_cohesion a text := by
  simp only [text_ease, List.zip_cons_cons, List.zip_nil_right, List.zip_nil_left,
    List.map_cons, List.map_nil, List.sum_cons, List.sum_nil]
  ring

/-- `deep_cohesion` on a text with at least one alphabetic word is the
connective count over the word count. -/
theorem deep_cohesion_eq (a : Adapters) (text : String)
    (h : (a.word_tokenize text).filter pyIsAlpha ≠ []) :
    deep_cohesion a text =
      (connectiveCount text : ℚ) /
        (((a.word_tokenize text).filter pyIsAlpha).length : ℚ) := by
  have hne : ¬((a.word_tokenize text).filter pyIsAlpha).isEmpty = true := by
    simpa [List.isEmpty_iff] using h
  simp only [deep_cohesion]
  rw [if_neg hne]

/-- C5: `deep_cohesion` is 0 with no alphabetic words; otherwise it is
the number of space-bounded connective occurrences in the lower-cased
text divided by the alphabetic word count, and for a fixed connective
count it scales inversely with the word count (doubling the words
halves the score). -/
theorem deep_cohesion_spec (a : Adapters) (text : String) :
    ((a.word_tokenize text).filter pyIsAlpha = [] → deep_cohesion a text = 0) ∧
    ((a.word_tokenize text).filter pyIsAlpha ≠ [] →
      deep_cohesion a text =
        (connectiveCount text : ℚ) /
          (((a.word_tokenize text).filter pyIsAlpha).length : ℚ)) ∧
    (∀ (a2 : Adapters) (t2 : String),
      connectiveCount t2 = connectiveCount text →
      ((a2.word_tokenize t2).filter pyIsAlpha).length
        = 2 * ((a.word_tokenize text).filter pyIsAlpha).length →
      (a.word_tokenize text).filter pyIsAlpha ≠ [] →
      deep_cohesion a2 t2 = deep_cohesion a text / 2) := by
  refine ⟨?_, ?_, ?_⟩
  · intro h
    simp [deep_cohesion, h]
  · exact deep_cohesion_eq a text
  · intro a2 t2 hc hl hne
    have hpos : 0 < ((a.word_tokenize text).filter pyIsAlpha).length :=
      List.length_pos.2 hne
    have hne2 : (a2.word_tokenize t2).filter pyIsAlpha ≠ [] := by
      intro h0
      rw [h0] at hl
      simp only [List.length_nil] at hl
      omega
    rw [deep_cohesion_eq a2 t2 hne2, deep_cohesion_eq a text hne, hc, hl]
    have hq : (((a.word_tokenize text).filter pyIsAlpha).length : ℚ) ≠ 0 := by
      exact_mod_cast Nat.pos_iff_ne_zero.1 hpos
    push_cast
    rw [div_div]
    ring

/-- Witness for C5 at concrete inputs: doubling the words of a one-
connective text while keeping the connective count halves the score. -/
theorem deep_cohesion_spec_witness :
    connectiveCount "x because y z a b c d" = connectiveCount "x because y z" ∧
    ((testAdapters.word_tokenize "x because y z a b c d").filter pyIsAlpha).length
      = 2 * ((testAdapters.word_tokenize "x because y z").filter pyIsAlpha).length ∧
    deep_cohesion testAdapters "x because y z a b c d"
      = deep_cohesion testAdapters "x because y z" / 2 :=
  ⟨by decide, by decide,
   (deep_cohesion_spec testAdapters "x because y z").2.2 testAdapters
     "x because y z a b c d" (by decide) (by decide) (by decide)⟩

/-- C4: every sentence is classified into exactly one of the five types
by first-match priority (trailing `?`; else trailing `!`; else a
subordinating starter; else a comma with more than 10 tokens; else
simple), the result is exactly (distinct observed types)/5 and lies in
[0, 1], it is 0 with no sentences, and a single question sentence
yields 0.2. -/
theorem sentence_type_diversity_spec (a : Adapters) (text : String) :
    (∀ s, classifySentence a s ∈ SENT_TYPES) ∧
    (∀ s, pyEndsWith (pyStrip s) '?' = true → classifySentence a s = "question") ∧
    (∀ s, pyEndsWith (pyStrip s) '?' = false → pyEndsWith (pyStrip s) '!' = true →
      classifySentence a s = "exclamation") ∧
    (∀ s, pyEndsWith (pyStrip s) '?' = false → pyEndsWith (pyStrip s) '!' = false →
      COMPLEX_STARTERS.any (fun w => pyStartsWith (pyLower (pyStrip s)) w) = true →
      classifySentence a s = "complex") ∧
    (∀ s, pyEndsWith (pyStrip s) '?' = false → pyEndsWith (pyStrip s) '!' = false →
      COMPLEX_STARTERS.any (fun w => pyStartsWith (pyLower (pyStrip s)) w) = false →
      (pyContainsChar s ',' && decide ((a.word_tokenize s).length > 10)) = true →
      classifySentence a s = "compound") ∧
    (∀ s, pyEndsWith (pyStrip s) '?' = false → pyEndsWith (pyStrip s) '!' = false →
      COMPLEX_STARTERS.any (fun w => pyStartsWith (pyLower (pyStrip s)) w) = false →
      (pyContainsChar s ',' && decide ((a.word_tokenize s).length > 10)) = false →
      classifySentence a s = "simple") ∧
    (a.sent_tokenize text = [] → sentence_type_diversity a text = 0) ∧
    (a.sent_tokenize text ≠ [] →
      sentence_type_diversity a text =
        (((a.sent_tokenize text).map (classifySentence a)).toFinset.card : ℚ) / 5) ∧
    (0 ≤ sentence_type_diversity a text ∧ sentence_type_diversity a text ≤ 1) ∧
    (∀ s, a.sent_tokenize text = [s] → pyEndsWith (pyStrip s) '?' = true →
      sentence_type_diversity a text = 0.2) := by
  have hmem : ∀ s, classifySentence a s ∈ SENT_TYPES := by
    intro s
    simp only [classifySentence, SENT_TYPES]
    split_ifs <;> simp
  have hq : ∀ s, pyEndsWith (pyStrip s) '?' = true →
      classifySentence a s = "question" := by
    intro s h
    simp [classifySentence, h]
  have hx : ∀ s, pyEndsWith (pyStrip s) '?' = false →
      pyEndsWith (pyStrip s) '!' = true → classifySentence a s = "exclamation" := by
    intro s h1 h2
    simp [classifySentence, h1, h2]
  have hcpx : ∀ s, pyEndsWith (pyStrip s) '?' = false →
      pyEndsWith (pyStrip s) '!' = false →
      COMPLEX_STARTERS.any (fun w => pyStartsWith (pyLower (pyStrip s)) w) = true →
      classifySentence a s = "complex" := by
    intro s h1 h2 h3
    simp [classifySentence, h1, h2, h3]
  have hcmp : ∀ s, pyEndsWith (pyStrip s) '?' = false →
      pyEndsWith (pyStrip s) '!' = false →
      COMPLEX_STARTERS.any (fun w => pyStartsWith (pyLower (pyStrip s)) w) = false →
      (pyContainsChar s ',' && decide ((a.word_tokenize s).length > 10)) = true →
      classifySentence a s = "compound" := by
    intro s h1 h2 h3 h4
    simp [classifySentence, h1, h2, h3, h4]
  have hsimp : ∀ s, pyEndsWith (pyStrip s) '?' = false →
      pyEndsWith (pyStrip s) '!' = false →
      COMPLEX_STARTERS.any (fun w => pyStartsWith (pyLower (pyStrip s)) w) = false →
      (pyContainsChar s ',' && decide ((a.word_tokenize s).length > 10)) = false →
      classifySentence a s = "simple" := by
    intro s h1 h2 h3 h4
    simp [classifySentence, h1, h2, h3, h4]
  have hempty : a.sent_tokenize text = [] → sentence_type_diversity a text = 0 := by
    intro h
    simp [sentence_type_diversity, h]
  have hval : a.sent_tokenize text ≠ [] →
      sentence_type_diversity a text =
        (((a.sent_tokenize text).map (classifySentence a)).toFinset.card : ℚ) / 5 := by
    intro h
    simp only [sentence_type_diversity]
    rw [if_neg (by simpa [List.isEmpty_iff] using h)]
  have hbounds : 0 ≤ sentence_type_diversity a text ∧
      sentence_type_diversity a text ≤ 1 := by
    by_cases h : a.sent_tokenize text = []
    · rw [hempty h]
      norm_num
    · rw [hval h]
      constructor
      · positivity
      · rw [div_le_one (by norm_num : (0 : ℚ) < 5)]
        have hsub : ((a.sent_tokenize text).map (classifySentence a)).toFinset
            ⊆ SENT_TYPES.toFinset := by
          intro x hxx
          rw [List.mem_toFinset] at hxx ⊢
          obtain ⟨s, hs', rfl⟩ := List.mem_map.1 hxx
          exact hmem s
        have hcard := Finset.card_le_card hsub
        have h5 : SENT_TYPES.toFinset.card = 5 := by decide
        rw [h5] at hcard
        exact_mod_cast hcard
  have hone : ∀ s, a.sent_tokenize text = [s] →
      pyEndsWith (pyStrip s) '?' = true →
      sentence_type_diversity a text = 0.2 := by
    intro s hs hq2
    have hcq := hq s hq2
    rw [hval (by rw [hs]; simp)]
    rw [hs]
    simp only [List.map_cons, List.map_nil, hcq]
    norm_num [List.toFinset_cons, List.toFinset_nil]
  exact ⟨hmem, hq, hx, hcpx, hcmp, hsimp, hempty, hval, hbounds, hone⟩

/-- Witness for C4 at a concrete input: a single question sentence
yields a diversity of 0.2. -/
theorem sentence_type_diversity_spec_witness :
    testAdapters.sent_tokenize "ok?" = ["ok?"] ∧
    pyEndsWith (pyStrip "ok?") '?' = true ∧
    sentence_type_diversity testAdapters "ok?" = 0.2 :=
  ⟨by decide, by decide,
   (sentence_type_diversity_spec testAdapters "ok?").2.2.2.2.2.2.2.2.2 "ok?"
     (by decide) (by decide)⟩

/-- C1: for every input — `None`, the empty string, non-string values,
and any proper text — the record returned by `extract` has exactly the
20 canonical feature keys under the configured prefix, in order, with
none missing or extra; and for degenerate input every key maps to
integer zero. -/
theorem extract_keys_complete (a : Adapters) (pre : String) (input : PyInput) :
    (extract a pre input).map Prod.fst = FEATURE_NAMES.map (fun n => pre ++ n) ∧
    (isDegenerateInput input = true →
      extract a pre input = FEATURE_NAMES.map (fun n => (pre ++ n, PyNum.int 0))) := by
  constructor
  · cases input with
    | pyStr text =>
      by_cases ht : text = ""
      · simp [extract, ht]
      · simp only [extract]
        rw [if_neg ht]
        by_cases hp : pre = ""
        · subst hp
          simp [featureValues, FEATURE_NAMES, str_empty_append]
        · rw [if_pos hp]
          simp [featureValues, FEATURE_NAMES]
    | pyNone => simp [extract]
    | pyInt n => simp [extract]
    | pyList => simp [extract]
  · intro hdeg
    cases input with
    | pyStr text =>
      have ht : text = "" := by simpa [isDegenerateInput] using hdeg
      simp [extract, ht]
    | pyNone => simp [extract]
    | pyInt n => simp [extract]
    | pyList => simp [extract]

/-- Witness for C1 at a concrete input: `None` yields all 20 prefixed
keys mapped to integer zero. -/
theorem extract_keys_complete_witness :
    isDegenerateInput PyInput.pyNone = true ∧
    extract testAdapters "OST_" PyInput.pyNone
      = FEATURE_NAMES.map (fun n => ("OST_" ++ n, PyNum.int 0)) :=
  ⟨by decide,
   (extract_keys_complete testAdapters "OST_" PyInput.pyNone).2 (by decide)⟩

/-- C8: with the lazy checker singleton made explicit, running `extract`
twice on the same input from the state left by the first run returns an
identical feature record, and the state is unchanged by the second run:
extraction is deterministic and mutates no output-relevant hidden state
across calls. -/
theorem extract_idempotent (a : Adapters) (mk : Unit → String → Nat)
    (pre : String) (input : PyInput) (st : ProcState) :
    (extract_st a mk pre input ((extract_st a mk pre input st).2)).1
        = (extract_st a mk pre input st).1 ∧
    (extract_st a mk pre input ((extract_st a mk pre input st).2)).2
        = (extract_st a mk pre input st).2 := by
  cases input with
  | pyStr text =>
    by_cases ht : text = ""
    · subst ht
      simp [extract_st]
    · by_cases hlen : text.length < 10
      · simp [extract_st, error_count_st, ht, hlen]
      · rcases hst : st.language_tool with _ | tool
        · simp [extract_st, error_count_st, getLanguageTool, ht, hlen, hst]
        · simp [extract_st, error_count_st, getLanguageTool, ht, hlen, hst]
  | pyNone => simp [extract_st]
  | pyInt n => simp [extract_st]
  | pyList => simp [extract_st]

/-- A grammar checker that always fails, standing for an unavailable
external service. -/
def failingCheck : String → Except String Nat :=
  fun _ => .error "grammar service failure"

/-- C6 counterexample: when the single grammar-check call fails on a
text of length at least 10, the whole extraction propagates the failure
instead of resolving `error_count` to zero — no retry, no warning, no
feature record is produced. -/
theorem grammar_failure_crashes_cex :
    extract_exc testAdapters failingCheck "OST_"
      (.pyStr "a text of sufficient length.") = .error "grammar service failure" := rfl

/-- C6 as amended: a failing grammar-check call on non-empty text of
length at least 10 propagates its error out of `error_count` and out of
`extract`; `error_count` resolves to zero without the service only for
empty or sub-10-character input. -/
theorem grammar_failure_propagates (a : Adapters)
    (check : String → Except String Nat) (pre text e : String)
    (hfail : check text = .error e) (hne : text ≠ "")
    (hlen : ¬ text.length < 10) :
    error_count_exc check text = .error e ∧
    extract_exc a check pre (.pyStr text) = .error e := by
  have hcond : ¬(text = "" ∨ text.length < 10) := by
    push_neg
    exact ⟨hne, by omega⟩
  have h1 : error_count_exc check text = .error e := by
    simp only [error_count_exc]
    rw [if_neg hcond, hfail]
  refine ⟨h1, ?_⟩
  simp only [extract_exc]
  rw [if_neg hne, h1]

/-- Witness for C6 (amended) at a concrete input: the failing checker's
error surfaces unchanged from `error_count` and `extract`. -/
theorem grammar_failure_propagates_witness :
    failingCheck "a text of sufficient length." = .error "grammar service failure" ∧
    error_count_exc failingCheck "a text of sufficient length."
      = .error "grammar service failure" ∧
    extract_exc testAdapters failingCheck "OST_"
      (.pyStr "a text of sufficient length.") = .error "grammar service failure" :=
  ⟨rfl,
   (grammar_failure_propagates testAdapters failingCheck "OST_"
     "a text of sufficient length." "grammar service failure" rfl (by decide)
     (by decide)).1,
   (grammar_failure_propagates testAdapters failingCheck "OST_"
     "a text of sufficient length." "grammar service failure" rfl (by decide)
     (by decide)).2⟩
